import Mathlib

/-!
Shallow embedding of the chat backend in src/server.js.

The data store (Supabase/PostgREST) is modelled as four in-memory tables
plus explicit error-injection parameters: each handler takes, for every
query it issues, an optional injected store error, mirroring the
`{ data, error }` result pairs the client library returns.  The
PostgREST `.single()` modifier reports "not exactly one row" as an error
with the distinguished code PGRST116 (the login handler in the source
relies on exactly this code).
-/

namespace ChatApp

/-- Row of the users table, projected to `id, username`. -/
structure User where
  id : String
  username : String
deriving Repr, DecidableEq

/-- Row of the chats table: `name` is nullable. -/
structure Chat where
  id : String
  name : Option String
deriving Repr, DecidableEq

/-- Row of the user_chats join table (Membership). -/
structure UserChat where
  user_id : String
  chat_id : String
deriving Repr, DecidableEq

/-- Row of the messages table; `created_at` is a timestamp modelled as Nat. -/
structure Message where
  id : String
  chat_id : String
  sender_id : String
  body : String
  created_at : Nat
deriving Repr, DecidableEq

/-- The relational store consumed by the handlers.  `nextId` is the id the
store will assign to the next inserted user row. -/
structure Store where
  users : List User
  chats : List Chat
  user_chats : List UserChat
  messages : List Message
  nextId : String
deriving Repr, DecidableEq

/-- A store (PostgREST) error: a code and a message. -/
structure DBError where
  code : String
  message : String
deriving Repr, DecidableEq

/-- Models the PostgREST single-row modifier: exactly one row yields that
row, any other cardinality yields the distinguished error code PGRST116.
The login handler in src/server.js lines 39-44 depends on this code to
detect "user not found". -/
def single {α : Type} (rows : List α) : Except DBError α :=
  match rows with
  | [x] => .ok x
  | _ => .error ⟨"PGRST116", "JSON object requested, multiple (or no) rows returned"⟩

/-- The embedded relational expansion `participants:user_chats(user:users(id, username))`
for one chat: every membership row of the chat, with the referenced user row
inlined.  Under the referential integrity owned by the external store every
membership resolves to a user row. -/
def participantsOf (s : Store) (chatId : String) : List User :=
  (s.user_chats.filter (fun uc => uc.chat_id = chatId)).filterMap
    (fun uc => s.users.find? (fun u => u.id = uc.user_id))

/-- Result row of the phase-2 batched chats query (src/server.js lines 73-80). -/
structure ChatRow where
  id : String
  name : Option String
  participants : List User
deriving Repr, DecidableEq

/-- Phase-2 batched fetch: chats whose id is in the given set, in store
order, each with its joined participant list. -/
def chatRowsFor (s : Store) (chatIds : List String) : List ChatRow :=
  (s.chats.filter (fun c => chatIds.contains c.id)).map
    (fun c => ⟨c.id, c.name, participantsOf s c.id⟩)

/-- Descending comparison on `created_at`, the order clause of the phase-3
query. -/
def descByCreated (a b : Message) : Prop := b.created_at ≤ a.created_at

/-- Ascending comparison on `created_at`, the order clause of the message
list endpoint. -/
def ascByCreated (a b : Message) : Prop := a.created_at ≤ b.created_at

instance : DecidableRel descByCreated := fun a b => Nat.decLe b.created_at a.created_at

instance : DecidableRel ascByCreated := fun a b => Nat.decLe a.created_at b.created_at

instance : IsTotal Message descByCreated := ⟨fun a b => Nat.le_total b.created_at a.created_at⟩

instance : IsTotal Message ascByCreated := ⟨fun a b => Nat.le_total a.created_at b.created_at⟩

instance : IsTrans Message descByCreated := ⟨fun _ _ _ h1 h2 => Nat.le_trans h2 h1⟩

instance : IsTrans Message ascByCreated := ⟨fun _ _ _ h1 h2 => Nat.le_trans h1 h2⟩

/-- The chat-id messages ordered by `created_at` descending, as the store
returns them for the phase-3 query (src/server.js lines 88-93). -/
def messagesDesc (s : Store) (chatId : String) : List Message :=
  List.insertionSort descByCreated (s.messages.filter (fun m => m.chat_id = chatId))

/-- The lastMessage projection `{body, timestamp}` of a ChatSummary. -/
structure LastMessage where
  body : String
  timestamp : Nat
deriving Repr, DecidableEq

/-- The response-time projection returned by GET /api/chats for one chat. -/
structure ChatSummary where
  id : String
  name : String
  participants : List User
  lastMessage : Option LastMessage
deriving Repr, DecidableEq

/-- JavaScript `a || b` for a nullable string `a`: null and the empty
string are falsy, any other string wins. -/
def jsOr (a : Option String) (b : String) : String :=
  match a with
  | some v => if v = "" then b else v
  | none => b

/-- The phase-3 per-chat query of src/server.js lines 88-93: the supabase
client returns a `(data, error)` pair; on an injected error the data is
null, otherwise the data is the descending-ordered messages limited to one
row. -/
def lastMessageQuery (s : Store) (e3 : String → Option DBError) (chatId : String) :
    Option (List Message) × Option DBError :=
  match e3 chatId with
  | some e => (none, some e)
  | none => (some ((messagesDesc s chatId).take 1), none)

/-- The body of the per-chat async mapper in src/server.js lines 86-109.
The destructured lastMessageError is bound and never inspected, exactly as
in the source. -/
def formatChat (s : Store) (e3 : String → Option DBError) (userId : String)
    (chat : ChatRow) : ChatSummary :=
  let qr := lastMessageQuery s e3 chat.id
  let lastMessageData := qr.1
  let otherParticipants := chat.participants.filter (fun p => p.id ≠ userId)
  let chatName := jsOr chat.name
    (if otherParticipants.length > 0
     then String.intercalate ", " (otherParticipants.map (fun p => p.username))
     else "New Chat")
  let lastMessage : Option Message :=
    match lastMessageData with
    | some l => if l.length > 0 then l.head? else none
    | none => none
  { id := chat.id
    name := chatName
    participants := chat.participants
    lastMessage := lastMessage.map (fun m => ⟨m.body, m.created_at⟩) }

/-- A query issued by the GET /api/chats handler, for tracing which
queries an execution performs. -/
inductive Query where
  | membershipQ (userId : String)
  | chatsQ (chatIds : List String)
  | lastMessageQ (chatId : String)
deriving Repr, DecidableEq

/-- Response of the GET /api/chats handler. -/
inductive ChatsResponse where
  | ok (body : List ChatSummary)
  | badRequest (msg : String)
  | serverError (msg : String)
deriving Repr, DecidableEq

/-- HTTP status of a ChatsResponse. -/
def ChatsResponse.status : ChatsResponse → Nat
  | .ok _ => 200
  | .badRequest _ => 400
  | .serverError _ => 500

/-- The GET /api/chats handler (src/server.js lines 56-118), with the
queries it issues recorded in a trace.  `e1` is an injected error for the
phase-1 membership query, `e2` for the phase-2 batched chats query, and
`e3` gives the injected error (if any) of the phase-3 last-message query
per chat id.  A phase-1 or phase-2 error is thrown and lands in the catch
block, which renders a 500 carrying the store error message. -/
def getChats (s : Store) (e1 e2 : Option DBError) (e3 : String → Option DBError)
    (userId : Option String) : ChatsResponse × List Query :=
  match userId with
  | none => (.badRequest "User ID is required", [])
  | some uid =>
    if uid = "" then (.badRequest "User ID is required", [])
    else
      match e1 with
      | some e => (.serverError e.message, [.membershipQ uid])
      | none =>
        let userChatLinks := s.user_chats.filter (fun uc => uc.user_id = uid)
        let chatIds := userChatLinks.map (fun link => link.chat_id)
        if chatIds.length = 0 then (.ok [], [.membershipQ uid])
        else
          match e2 with
          | some e => (.serverError e.message, [.membershipQ uid, .chatsQ chatIds])
          | none =>
            let chats := chatRowsFor s chatIds
            let formattedChats := chats.map (formatChat s e3 uid)
            (.ok formattedChats,
             [.membershipQ uid, .chatsQ chatIds] ++ chats.map (fun c => .lastMessageQ c.id))

/-- Response of the POST /api/login handler. -/
inductive LoginResponse where
  | ok (user : User)
  | badRequest (msg : String)
  | serverError (msg : String)
deriving Repr, DecidableEq

/-- HTTP status of a LoginResponse. -/
def LoginResponse.status : LoginResponse → Nat
  | .ok _ => 200
  | .badRequest _ => 400
  | .serverError _ => 500

/-- The POST /api/login handler (src/server.js lines 29-53).  `eSel` is an
injected error for the username lookup, `eIns` for the insert.  A lookup
error whose code is PGRST116 (not found) triggers insert-then-return;
any other lookup error, and any insert error, yields a 500. -/
def login (s : Store) (eSel eIns : Option DBError) (username : Option String) :
    LoginResponse :=
  match username with
  | none => .badRequest "Username is required"
  | some uname =>
    if uname = "" then .badRequest "Username is required"
    else
      let r : Except DBError User :=
        match eSel with
        | some e => .error e
        | none => single (s.users.filter (fun u => u.username = uname))
      match r with
      | .error e =>
        if e.code = "PGRST116" then
          match eIns with
          | some e2 => .serverError e2.message
          | none => .ok ⟨s.nextId, uname⟩
        else .serverError e.message
      | .ok user => .ok user

/-- Response of the single-resource GET handlers (chat by id, message by id). -/
inductive FetchResponse (α : Type) where
  | ok (body : α)
  | notFound (msg : String)
  | serverError (msg : String)
deriving Repr, DecidableEq

/-- HTTP status of a FetchResponse. -/
def FetchResponse.status {α : Type} : FetchResponse α → Nat
  | .ok _ => 200
  | .notFound _ => 404
  | .serverError _ => 500

/-- The GET /api/chats/:chatId handler (src/server.js lines 122-138): a
single-row select by id; the error branch is checked before the null-data
branch, exactly as in the source. -/
def getChatById (s : Store) (err : Option DBError) (chatId : String) :
    FetchResponse ChatRow :=
  let qr : Option ChatRow × Option DBError :=
    match err with
    | some e => (none, some e)
    | none =>
      match single ((s.chats.filter (fun c => c.id = chatId)).map
          (fun c => ⟨c.id, c.name, participantsOf s c.id⟩)) with
      | .ok x => (some x, none)
      | .error e => (none, some e)
  match qr.2 with
  | some e => .serverError e.message
  | none =>
    match qr.1 with
    | none => .notFound "Chat not found"
    | some data => .ok data

/-- The sender projection `sender:users(username)` inlined in a message row. -/
structure SenderInfo where
  username : String
deriving Repr, DecidableEq

/-- A message row as returned by the message endpoints: the stored columns
plus the expanded sender. -/
structure MessageRow where
  id : String
  body : String
  created_at : Nat
  sender_id : String
  sender : Option SenderInfo
deriving Repr, DecidableEq

/-- Relational expansion of one message row with its sender username. -/
def expandMessage (s : Store) (m : Message) : MessageRow :=
  { id := m.id
    body := m.body
    created_at := m.created_at
    sender_id := m.sender_id
    sender := (s.users.find? (fun u => u.id = m.sender_id)).map
      (fun u => ⟨u.username⟩) }

/-- Response of the GET /api/chats/:chatId/messages handler. -/
inductive ListResponse (α : Type) where
  | ok (body : List α)
  | serverError (msg : String)
deriving Repr, DecidableEq

/-- HTTP status of a ListResponse. -/
def ListResponse.status {α : Type} : ListResponse α → Nat
  | .ok _ => 200
  | .serverError _ => 500

/-- The GET /api/chats/:chatId/messages handler (src/server.js lines
141-151): the messages of the chat ordered by `created_at` ascending, each
with the sender expanded. -/
def getChatMessages (s : Store) (err : Option DBError) (chatId : String) :
    ListResponse MessageRow :=
  match err with
  | some e => .serverError e.message
  | none =>
    .ok ((List.insertionSort ascByCreated
      (s.messages.filter (fun m => m.chat_id = chatId))).map (expandMessage s))

/-- The GET /api/messages/:messageId handler (src/server.js lines 154-166):
a single-row select by id with sender expansion; the error branch is
checked before the null-data branch, exactly as in the source. -/
def getMessageById (s : Store) (err : Option DBError) (messageId : String) :
    FetchResponse MessageRow :=
  let qr : Option MessageRow × Option DBError :=
    match err with
    | some e => (none, some e)
    | none =>
      match single ((s.messages.filter (fun m => m.id = messageId)).map
          (expandMessage s)) with
      | .ok x => (some x, none)
      | .error e => (none, some e)
  match qr.2 with
  | some e => .serverError e.message
  | none =>
    match qr.1 with
    | none => .notFound "Message not found"
    | some data => .ok data

/-- Modelled from the spec: the display-name rule of section 4.2.  Rule, in
order: a non-empty stored name wins; else the usernames of participants
whose id differs from the requester id, joined with comma-space, in
participant-list order; else (zero other participants) the literal
"New Chat".  This definition follows the wording of the spec and is
compared against the name computed by the handler. -/
def resolveDisplayNameSpec (requesterId : String) (storedName : Option String)
    (participants : List User) : String :=
  let fallback :=
    let others := participants.filter (fun p => p.id ≠ requesterId)
    if others.length > 0
    then String.intercalate ", " (others.map (fun p => p.username))
    else "New Chat"
  match storedName with
  | some v => if v = "" then fallback else v
  | none => fallback

/-! Helper lemmas. -/

/-- The descending-ordered message list of a chat is empty exactly when the
chat has no messages. -/
theorem messagesDesc_eq_nil_iff (s : Store) (chatId : String) :
    messagesDesc s chatId = [] ↔ s.messages.filter (fun m => m.chat_id = chatId) = [] := by
  constructor
  · intro h
    have hp := List.perm_insertionSort descByCreated
      (s.messages.filter (fun m => m.chat_id = chatId))
    rw [messagesDesc] at h
    rw [h] at hp
    exact hp.symm.eq_nil
  · intro h
    rw [messagesDesc, h]
    simp

/-- The head of the descending-ordered message list of a chat is a message
of that chat with maximal created_at. -/
theorem messagesDesc_head_max (s : Store) (chatId : String) (m : Message)
    (h : (messagesDesc s chatId).head? = some m) :
    m ∈ s.messages.filter (fun m2 => m2.chat_id = chatId) ∧
    ∀ m2 ∈ s.messages.filter (fun m3 => m3.chat_id = chatId),
      m2.created_at ≤ m.created_at := by
  have hp := List.perm_insertionSort descByCreated
    (s.messages.filter (fun m2 => m2.chat_id = chatId))
  have hs := List.sorted_insertionSort descByCreated
    (s.messages.filter (fun m2 => m2.chat_id = chatId))
  obtain ⟨t, ht⟩ : ∃ t, messagesDesc s chatId = m :: t := by
    cases hml : messagesDesc s chatId with
    | nil => rw [hml] at h; simp at h
    | cons a t =>
      rw [hml] at h
      simp at h
      exact ⟨t, by rw [h]⟩
  rw [messagesDesc] at ht
  rw [ht] at hp hs
  constructor
  · exact hp.mem_iff.mp (List.mem_cons_self m t)
  · intro m2 hm2
    have hmem : m2 ∈ m :: t := hp.mem_iff.mpr hm2
    rcases List.mem_cons.mp hmem with h1 | h1
    · rw [h1]
    · exact List.rel_of_sorted_cons hs m2 h1

/-- When no error is injected for the chat, the lastMessage computed by the
per-chat mapper is the head of the descending-ordered message list. -/
theorem formatChat_lastMessage_none (s : Store) (e3 : String → Option DBError)
    (uid : String) (chat : ChatRow) (h : e3 chat.id = none) :
    (formatChat s e3 uid chat).lastMessage
      = (messagesDesc s chat.id).head?.map (fun m => (⟨m.body, m.created_at⟩ : LastMessage)) := by
  cases hml : messagesDesc s chat.id with
  | nil => simp [formatChat, lastMessageQuery, h, hml]
  | cons a t => simp [formatChat, lastMessageQuery, h, hml]

/-- When an error is injected for the chat, the per-chat mapper ignores it
and produces a null lastMessage. -/
theorem formatChat_lastMessage_err (s : Store) (e3 : String → Option DBError)
    (uid : String) (chat : ChatRow) (h : (e3 chat.id).isSome) :
    (formatChat s e3 uid chat).lastMessage = none := by
  obtain ⟨e, he⟩ := Option.isSome_iff_exists.mp h
  simp [formatChat, lastMessageQuery, he]

/-- The name computed by the per-chat mapper agrees with the display-name
rule stated in the spec. -/
theorem formatChat_name_eq_spec (s : Store) (e3 : String → Option DBError)
    (uid : String) (chat : ChatRow) :
    (formatChat s e3 uid chat).name
      = resolveDisplayNameSpec uid chat.name chat.participants := by
  cases hn : chat.name with
  | none => simp [formatChat, jsOr, resolveDisplayNameSpec, hn]
  | some v =>
    by_cases hv : v = "" <;>
      simp [formatChat, jsOr, resolveDisplayNameSpec, hn, hv]

/-- Inversion for a 200 result of the chats handler with no phase-1 or
phase-2 error: the body is either empty (membership short-circuit) or the
formatted chat rows. -/
theorem getChats_ok_cases (s : Store) (e3 : String → Option DBError) (uid : String)
    (l : List ChatSummary)
    (h : (getChats s none none e3 (some uid)).fst = .ok l) :
    l = [] ∨
      l = (chatRowsFor s ((s.user_chats.filter (fun uc => uc.user_id = uid)).map
            (fun link => link.chat_id))).map (formatChat s e3 uid) := by
  by_cases h0 : uid = ""
  · simp [getChats, h0] at h
  · by_cases h1 : ((s.user_chats.filter (fun uc => uc.user_id = uid)).map
        (fun link => link.chat_id)).length = 0
    · left
      simp [getChats, h0, h1] at h
      exact h
    · right
      have h2 : ChatsResponse.ok
          ((chatRowsFor s ((s.user_chats.filter (fun uc => uc.user_id = uid)).map
            (fun link => link.chat_id))).map (formatChat s e3 uid)) = ChatsResponse.ok l := by
        simp only [getChats] at h
        rw [if_neg h0, if_neg h1] at h
        exact h
      exact (ChatsResponse.ok.inj h2).symm

/-- The id field of a formatted chat is the id of its chat row. -/
theorem formatChat_id (s : Store) (e3 : String → Option DBError) (uid : String)
    (chat : ChatRow) : (formatChat s e3 uid chat).id = chat.id := rfl

/-- The participants field of a formatted chat is the untouched participant
list of its chat row. -/
theorem formatChat_participants (s : Store) (e3 : String → Option DBError)
    (uid : String) (chat : ChatRow) :
    (formatChat s e3 uid chat).participants = chat.participants := rfl

/-! Concrete stores used to instantiate theorems at specific inputs. -/

/-- A small concrete store: alice and bob share chat c1 (name null, two
messages), alice, bob and carol share chat c2 (name Team, no messages). -/
def sampleStore : Store :=
  { users := [⟨"u1", "alice"⟩, ⟨"u2", "bob"⟩, ⟨"u3", "carol"⟩]
    chats := [⟨"c1", none⟩, ⟨"c2", some "Team"⟩]
    user_chats := [⟨"u1", "c1"⟩, ⟨"u2", "c1"⟩, ⟨"u1", "c2"⟩, ⟨"u2", "c2"⟩, ⟨"u3", "c2"⟩]
    messages := [⟨"m1", "c1", "u1", "hi", 1⟩, ⟨"m2", "c1", "u2", "yo", 2⟩]
    nextId := "u4" }

/-- A store with no rows at all. -/
def emptyStore : Store :=
  { users := [], chats := [], user_chats := [], messages := [], nextId := "u1" }

/-! Claim theorems. -/

/-- Claim C5: for every user with zero membership rows, the chats handler
returns an empty sequence with HTTP 200 and issues no chat query and no
message query — the trace holds only the membership query. -/
theorem empty_memberships_short_circuit (s : Store) (uid : String)
    (e2 : Option DBError) (e3 : String → Option DBError) (h : uid ≠ "")
    (hm : s.user_chats.filter (fun uc => uc.user_id = uid) = []) :
    (getChats s none e2 e3 (some uid)).fst = .ok [] ∧
    ((getChats s none e2 e3 (some uid)).fst).status = 200 ∧
    (getChats s none e2 e3 (some uid)).snd = [.membershipQ uid] := by
  refine ⟨?_, ?_, ?_⟩ <;>
    simp [getChats, h, hm, ChatsResponse.status]

/-- Witness for C5: a user with no memberships in the sample store. -/
theorem empty_memberships_short_circuit_witness :
    ("zed" ≠ "" ∧ sampleStore.user_chats.filter (fun uc => uc.user_id = "zed") = []) ∧
    ((getChats sampleStore none none (fun _ => none) (some "zed")).fst = .ok [] ∧
     ((getChats sampleStore none none (fun _ => none) (some "zed")).fst).status = 200 ∧
     (getChats sampleStore none none (fun _ => none) (some "zed")).snd
       = [.membershipQ "zed"]) :=
  ⟨⟨by decide, by decide⟩,
   empty_memberships_short_circuit sampleStore "zed" none (fun _ => none)
     (by decide) (by decide)⟩

/-- Claim C4: a phase-1 or phase-2 store failure aborts the whole operation
with a single 500 response carrying the underlying store error message; the
serverError constructor carries only that message, so no partial results
are returned. -/
theorem phase12_failure_aborts (s : Store) (uid : String) (e : DBError)
    (e2 : Option DBError) (e3 : String → Option DBError) (h : uid ≠ "") :
    ((getChats s (some e) e2 e3 (some uid)).fst = .serverError e.message ∧
     ((getChats s (some e) e2 e3 (some uid)).fst).status = 500) ∧
    (s.user_chats.filter (fun uc => uc.user_id = uid) ≠ [] →
      ((getChats s none (some e) e3 (some uid)).fst = .serverError e.message ∧
       ((getChats s none (some e) e3 (some uid)).fst).status = 500)) := by
  refine ⟨⟨?_, ?_⟩, ?_⟩
  · simp [getChats, h]
  · simp [getChats, h, ChatsResponse.status]
  · intro hm
    have hl : ¬(((s.user_chats.filter (fun uc => uc.user_id = uid)).map
        (fun link => link.chat_id)).length = 0) := by simpa using hm
    constructor
    · simp only [getChats]
      rw [if_neg h, if_neg hl]
    · simp only [getChats]
      rw [if_neg h, if_neg hl]
      rfl

/-- Witness for C4: an injected store failure in each early phase for a
user with memberships in the sample store. -/
theorem phase12_failure_aborts_witness :
    ("u1" ≠ "" ∧ sampleStore.user_chats.filter (fun uc => uc.user_id = "u1") ≠ []) ∧
    ((getChats sampleStore (some ⟨"XX000", "boom"⟩) none (fun _ => none)
        (some "u1")).fst = .serverError "boom" ∧
     (getChats sampleStore none (some ⟨"XX000", "boom"⟩) (fun _ => none)
        (some "u1")).fst = .serverError "boom") :=
  ⟨⟨by decide, by decide⟩,
   (phase12_failure_aborts sampleStore "u1" ⟨"XX000", "boom"⟩ none (fun _ => none)
      (by decide)).1.1,
   ((phase12_failure_aborts sampleStore "u1" ⟨"XX000", "boom"⟩ none (fun _ => none)
      (by decide)).2 (by decide)).1⟩

/-- Claim C3 counterexample: in the sample store, chat c1 has messages; with
an injected failure of every phase-3 last-message fetch, the operation does
not abort with a 500 — it completes with HTTP 200. -/
theorem phase3_failure_counterexample :
    sampleStore.messages.filter (fun m => m.chat_id = "c1") ≠ [] ∧
    ((getChats sampleStore none none (fun _ => some ⟨"XX000", "boom"⟩)
       (some "u1")).fst).status = 200 ∧
    ((getChats sampleStore none none (fun _ => some ⟨"XX000", "boom"⟩)
       (some "u1")).fst).status ≠ 500 := by
  decide

/-- Claim C3 (amended): a failing per-chat last-message fetch in phase 3
does not abort the operation; whenever phases 1 and 2 succeed, the response
status is 200 regardless of which phase-3 fetches fail. -/
theorem phase3_failure_no_abort (s : Store) (uid : String)
    (e3 : String → Option DBError) (h : uid ≠ "") :
    ((getChats s none none e3 (some uid)).fst).status = 200 := by
  by_cases h1 : ((s.user_chats.filter (fun uc => uc.user_id = uid)).map
      (fun link => link.chat_id)).length = 0
  · simp only [getChats]
    rw [if_neg h, if_pos h1]
    rfl
  · simp only [getChats]
    rw [if_neg h, if_neg h1]
    rfl

/-- Witness for the amended C3: every phase-3 fetch fails in the sample
store, and the response is still a 200. -/
theorem phase3_failure_no_abort_witness :
    ("u1" ≠ "") ∧
    ((getChats sampleStore none none (fun _ => some ⟨"XX000", "boom"⟩)
       (some "u1")).fst).status = 200 :=
  ⟨by decide,
   phase3_failure_no_abort sampleStore "u1" (fun _ => some ⟨"XX000", "boom"⟩)
     (by decide)⟩

/-- Claim C10: the error result of a per-chat last-message fetch is never
inspected — whenever phases 1 and 2 succeed the request completes with a
200 body, and every chat whose phase-3 fetch failed has a null lastMessage. -/
theorem phase3_error_ignored (s : Store) (uid : String)
    (e3 : String → Option DBError) (h : uid ≠ "") :
    ∃ l, (getChats s none none e3 (some uid)).fst = .ok l ∧
      ∀ c ∈ l, (e3 c.id).isSome → c.lastMessage = none := by
  by_cases h1 : ((s.user_chats.filter (fun uc => uc.user_id = uid)).map
      (fun link => link.chat_id)).length = 0
  · refine ⟨[], ?_, by simp⟩
    simp only [getChats]
    rw [if_neg h, if_pos h1]
  · refine ⟨(chatRowsFor s ((s.user_chats.filter (fun uc => uc.user_id = uid)).map
      (fun link => link.chat_id))).map (formatChat s e3 uid), ?_, ?_⟩
    · simp only [getChats]
      rw [if_neg h, if_neg h1]
    · intro c hc herr
      obtain ⟨chat, _, rfl⟩ := List.mem_map.mp hc
      exact formatChat_lastMessage_err s e3 uid chat herr

/-- Witness for C10: in the sample store with every phase-3 fetch failing,
the body exists and the failing chats carry a null lastMessage. -/
theorem phase3_error_ignored_witness :
    ("u1" ≠ "") ∧
    (∃ l, (getChats sampleStore none none (fun _ => some ⟨"XX000", "boom"⟩)
        (some "u1")).fst = .ok l ∧
      ∀ c ∈ l, ((fun _ => some (⟨"XX000", "boom"⟩ : DBError)) c.id).isSome →
        c.lastMessage = none) :=
  ⟨by decide,
   phase3_error_ignored sampleStore "u1" (fun _ => some ⟨"XX000", "boom"⟩)
     (by decide)⟩

/-- The 200 body returned by the chats handler on the sample store for
requesting user u1, written out for witness statements. -/
def sampleOut : List ChatSummary :=
  [⟨"c1", "bob", [⟨"u1", "alice"⟩, ⟨"u2", "bob"⟩], some ⟨"yo", 2⟩⟩,
   ⟨"c2", "Team", [⟨"u1", "alice"⟩, ⟨"u2", "bob"⟩, ⟨"u3", "carol"⟩], none⟩]

/-- Claim C1: for every chat in a 200 chats body obtained with no store
failures, lastMessage is null exactly when the chat has no messages, and
otherwise carries the body and created_at of a message of that chat whose
created_at is maximal among the messages of the chat. -/
theorem lastMessage_is_max (s : Store) (uid : String) (l : List ChatSummary)
    (h : (getChats s none none (fun _ => none) (some uid)).fst = .ok l) :
    ∀ c ∈ l,
      (c.lastMessage = none ↔ s.messages.filter (fun m => m.chat_id = c.id) = []) ∧
      (∀ lm, c.lastMessage = some lm →
        ∃ m ∈ s.messages.filter (fun m2 => m2.chat_id = c.id),
          lm.body = m.body ∧ lm.timestamp = m.created_at ∧
          ∀ m2 ∈ s.messages.filter (fun m3 => m3.chat_id = c.id),
            m2.created_at ≤ m.created_at) := by
  intro c hc
  rcases getChats_ok_cases s (fun _ => none) uid l h with rfl | rfl
  · simp at hc
  · obtain ⟨chat, _, rfl⟩ := List.mem_map.mp hc
    have hlm := formatChat_lastMessage_none s (fun _ => none) uid chat rfl
    simp only [formatChat_id, hlm]
    constructor
    · constructor
      · intro hnone
        have hh : (messagesDesc s chat.id).head? = none := by
          cases hh2 : (messagesDesc s chat.id).head? with
          | none => rfl
          | some m => rw [hh2] at hnone; simp at hnone
        rw [List.head?_eq_none_iff] at hh
        exact (messagesDesc_eq_nil_iff s chat.id).mp hh
      · intro hnil
        have hd : messagesDesc s chat.id = [] :=
          (messagesDesc_eq_nil_iff s chat.id).mpr hnil
        rw [hd]
        rfl
    · intro lm hlm2
      cases hh : (messagesDesc s chat.id).head? with
      | none => rw [hh] at hlm2; simp at hlm2
      | some m =>
        rw [hh] at hlm2
        have he : (⟨m.body, m.created_at⟩ : LastMessage) = lm := Option.some.inj hlm2
        obtain ⟨hmem, hmax⟩ := messagesDesc_head_max s chat.id m hh
        subst he
        exact ⟨m, hmem, rfl, rfl, hmax⟩

/-- Witness for C1: the sample store body, where c1 carries its newest
message and c2 has none. -/
theorem lastMessage_is_max_witness :
    ((getChats sampleStore none none (fun _ => none) (some "u1")).fst = .ok sampleOut) ∧
    (∀ c ∈ sampleOut,
      (c.lastMessage = none ↔
        sampleStore.messages.filter (fun m => m.chat_id = c.id) = []) ∧
      (∀ lm, c.lastMessage = some lm →
        ∃ m ∈ sampleStore.messages.filter (fun m2 => m2.chat_id = c.id),
          lm.body = m.body ∧ lm.timestamp = m.created_at ∧
          ∀ m2 ∈ sampleStore.messages.filter (fun m3 => m3.chat_id = c.id),
            m2.created_at ≤ m.created_at)) :=
  ⟨by decide, lastMessage_is_max sampleStore "u1" sampleOut (by decide)⟩

/-- Claim C2: every chat in a 200 chats body carries the display name given
by the ordered rule (stored non-empty name, else other participants joined
with comma-space, else the literal New Chat), stated through the
spec-modelled resolveDisplayNameSpec applied to the stored name and the
participant list of that chat. -/
theorem chat_name_follows_rule (s : Store) (uid : String)
    (e3 : String → Option DBError) (l : List ChatSummary)
    (h : (getChats s none none e3 (some uid)).fst = .ok l) :
    ∀ c ∈ l, ∃ chat ∈ s.chats, chat.id = c.id ∧
      c.name = resolveDisplayNameSpec uid chat.name (participantsOf s chat.id) := by
  intro c hc
  rcases getChats_ok_cases s e3 uid l h with rfl | rfl
  · simp at hc
  · obtain ⟨row, hrow, rfl⟩ := List.mem_map.mp hc
    simp only [chatRowsFor] at hrow
    obtain ⟨c0, hc0, rfl⟩ := List.mem_map.mp hrow
    refine ⟨c0, List.mem_of_mem_filter hc0, rfl, ?_⟩
    exact formatChat_name_eq_spec s e3 uid _

/-- Witness for C2: the sample store body, where c1 resolves to the other
participant bob and c2 keeps its stored name Team. -/
theorem chat_name_follows_rule_witness :
    ((getChats sampleStore none none (fun _ => none) (some "u1")).fst = .ok sampleOut) ∧
    (∀ c ∈ sampleOut, ∃ chat ∈ sampleStore.chats, chat.id = c.id ∧
      c.name = resolveDisplayNameSpec "u1" chat.name (participantsOf sampleStore chat.id)) :=
  ⟨by decide,
   chat_name_follows_rule sampleStore "u1" (fun _ => none) sampleOut (by decide)⟩

/-- Claim C6: every chat in a 200 chats body keeps its full participant
list (the membership join of the chat), and in particular the requesting
user appears in it whenever the requester is a member with a user row; the
requester is excluded only inside the name derivation. -/
theorem participants_full_and_include_requester (s : Store) (uid : String)
    (e3 : String → Option DBError) (l : List ChatSummary)
    (h : (getChats s none none e3 (some uid)).fst = .ok l) :
    ∀ c ∈ l,
      c.participants = participantsOf s c.id ∧
      ((∃ u ∈ s.users, u.id = uid) →
        (∃ uc ∈ s.user_chats, uc.user_id = uid ∧ uc.chat_id = c.id) →
        ∃ v ∈ c.participants, v.id = uid) := by
  intro c hc
  rcases getChats_ok_cases s e3 uid l h with rfl | rfl
  · simp at hc
  · obtain ⟨row, hrow, rfl⟩ := List.mem_map.mp hc
    simp only [chatRowsFor] at hrow
    obtain ⟨c0, _, rfl⟩ := List.mem_map.mp hrow
    refine ⟨rfl, ?_⟩
    simp only [formatChat_id, formatChat_participants]
    rintro ⟨u, hu, huid⟩ ⟨uc, hucmem, hucuser, hucchat⟩
    have hfind : (s.users.find? (fun w => w.id = uc.user_id)).isSome := by
      rw [List.find?_isSome]
      exact ⟨u, hu, by simp [huid, hucuser]⟩
    obtain ⟨v, hv⟩ := Option.isSome_iff_exists.mp hfind
    refine ⟨v, ?_, ?_⟩
    · rw [participantsOf, List.mem_filterMap]
      refine ⟨uc, ?_, hv⟩
      rw [List.mem_filter]
      exact ⟨hucmem, by simp [hucchat]⟩
    · have hp := List.find?_some hv
      simp at hp
      rw [hp, hucuser]

/-- Witness for C6: in the sample store body every participant list is the
full membership join and contains the requester u1. -/
theorem participants_full_and_include_requester_witness :
    ((getChats sampleStore none none (fun _ => none) (some "u1")).fst = .ok sampleOut) ∧
    (∀ c ∈ sampleOut,
      c.participants = participantsOf sampleStore c.id ∧
      ((∃ u ∈ sampleStore.users, u.id = "u1") →
        (∃ uc ∈ sampleStore.user_chats, uc.user_id = "u1" ∧ uc.chat_id = c.id) →
        ∃ v ∈ c.participants, v.id = "u1")) :=
  ⟨by decide,
   participants_full_and_include_requester sampleStore "u1" (fun _ => none)
     sampleOut (by decide)⟩

/-- Claim C7 at the failing input: with no chat c1 and no message m1 in the
store, both single-resource handlers return a 500 carrying the PostgREST
not-found error message rather than a 404 — the 404 branches of the source
are unreachable because the single-row modifier reports zero rows as a
store error. -/
theorem single_fetch_not_found_is_500 :
    getChatById emptyStore none "c1"
      = .serverError "JSON object requested, multiple (or no) rows returned" ∧
    (getChatById emptyStore none "c1").status = 500 ∧
    getMessageById emptyStore none "m1"
      = .serverError "JSON object requested, multiple (or no) rows returned" ∧
    (getMessageById emptyStore none "m1").status = 500 := by
  decide

/-- Claim C8: the login handler returns 400 without a username, returns an
existing user with 200, turns a PGRST116 not-found lookup into an insert
returning the new user with 200, and yields 500 on any other lookup error
and on an insert error. -/
theorem login_behavior (s : Store) :
    (∀ eSel eIns, login s eSel eIns none = .badRequest "Username is required") ∧
    (∀ uname u eIns, uname ≠ "" →
      s.users.filter (fun w => w.username = uname) = [u] →
      login s none eIns (some uname) = .ok u) ∧
    (∀ uname, uname ≠ "" →
      s.users.filter (fun w => w.username = uname) = [] →
      login s none none (some uname) = .ok ⟨s.nextId, uname⟩) ∧
    (∀ uname e eIns, uname ≠ "" → e.code ≠ "PGRST116" →
      login s (some e) eIns (some uname) = .serverError e.message) ∧
    (∀ uname e2, uname ≠ "" →
      s.users.filter (fun w => w.username = uname) = [] →
      login s none (some e2) (some uname) = .serverError e2.message) := by
  refine ⟨?_, ?_, ?_, ?_, ?_⟩
  · intro eSel eIns; rfl
  · intro uname u eIns h hf
    simp [login, h, single, hf]
  · intro uname h hf
    simp [login, h, single, hf]
  · intro uname e eIns h he
    simp [login, h, he]
  · intro uname e2 h hf
    simp [login, h, single, hf]

/-- Witness for C8: logging in as the existing alice returns her row,
logging in as the unknown dora creates and returns a new row, and a missing
username is a 400. -/
theorem login_behavior_witness :
    (sampleStore.users.filter (fun w => w.username = "alice") = [⟨"u1", "alice"⟩] ∧
     sampleStore.users.filter (fun w => w.username = "dora") = []) ∧
    (login sampleStore none none (some "alice") = .ok ⟨"u1", "alice"⟩ ∧
     login sampleStore none none (some "dora") = .ok ⟨"u4", "dora"⟩ ∧
     login sampleStore none none none = .badRequest "Username is required") :=
  ⟨⟨by decide, by decide⟩,
   (login_behavior sampleStore).2.1 "alice" ⟨"u1", "alice"⟩ none (by decide) (by decide),
   (login_behavior sampleStore).2.2.1 "dora" (by decide) (by decide),
   (login_behavior sampleStore).1 none none⟩

/-- Claim C9: a 200 body of the chat messages handler is ordered by
created_at ascending, is a permutation of all messages of the chat with
sender expansion, and every row carries the expanded sender username of its
sender_id. -/
theorem messages_sorted_and_complete (s : Store) (chatId : String)
    (l : List MessageRow) (h : getChatMessages s none chatId = .ok l) :
    List.Pairwise (fun a b => a.created_at ≤ b.created_at) l ∧
    l.Perm ((s.messages.filter (fun m => m.chat_id = chatId)).map (expandMessage s)) ∧
    (∀ row ∈ l, row.sender
      = (s.users.find? (fun u => u.id = row.sender_id)).map (fun u => ⟨u.username⟩)) := by
  have hl : l = (List.insertionSort ascByCreated
      (s.messages.filter (fun m => m.chat_id = chatId))).map (expandMessage s) := by
    have h2 : ListResponse.ok ((List.insertionSort ascByCreated
        (s.messages.filter (fun m => m.chat_id = chatId))).map (expandMessage s))
        = ListResponse.ok l := h
    exact (ListResponse.ok.inj h2).symm
  subst hl
  refine ⟨?_, ?_, ?_⟩
  · have hs := List.sorted_insertionSort ascByCreated
      (s.messages.filter (fun m => m.chat_id = chatId))
    exact hs.map (expandMessage s) (fun a b hab => hab)
  · exact (List.perm_insertionSort ascByCreated _).map (expandMessage s)
  · intro row hrow
    obtain ⟨m, _, rfl⟩ := List.mem_map.mp hrow
    rfl

/-- Witness for C9: the messages of chat c1 in the sample store come back
in ascending created_at order with senders expanded. -/
theorem messages_sorted_and_complete_witness :
    (getChatMessages sampleStore none "c1"
      = .ok [⟨"m1", "hi", 1, "u1", some ⟨"alice"⟩⟩,
             ⟨"m2", "yo", 2, "u2", some ⟨"bob"⟩⟩]) ∧
    (List.Pairwise (fun a b => a.created_at ≤ b.created_at)
       [(⟨"m1", "hi", 1, "u1", some ⟨"alice"⟩⟩ : MessageRow),
        ⟨"m2", "yo", 2, "u2", some ⟨"bob"⟩⟩] ∧
     List.Perm [(⟨"m1", "hi", 1, "u1", some ⟨"alice"⟩⟩ : MessageRow),
        ⟨"m2", "yo", 2, "u2", some ⟨"bob"⟩⟩]
       ((sampleStore.messages.filter (fun m => m.chat_id = "c1")).map
         (expandMessage sampleStore)) ∧
     (∀ row ∈ [(⟨"m1", "hi", 1, "u1", some ⟨"alice"⟩⟩ : MessageRow),
        ⟨"m2", "yo", 2, "u2", some ⟨"bob"⟩⟩], row.sender
       = (sampleStore.users.find? (fun u => u.id = row.sender_id)).map
           (fun u => ⟨u.username⟩))) :=
  ⟨by decide,
   messages_sorted_and_complete sampleStore "c1"
     [⟨"m1", "hi", 1, "u1", some ⟨"alice"⟩⟩, ⟨"m2", "yo", 2, "u2", some ⟨"bob"⟩⟩]
     (by decide)⟩

end ChatApp
